import Mathlib

/-!
Verification development for the telemetry ingestion-and-fan-out service
in main.py (FastAPI + SQLAlchemy + Pydantic v2).

The embedding models:
- the Pydantic request models (AccelerometerData, GpsData, AgentData,
  ProcessedAgentData) and the timestamp validation of AgentData;
- the SQLAlchemy row type ProcessedAgentDataDB and the database session as an
  explicit value (list of rows plus the auto-increment primary-key counter);
- the WebSocket subscription registry (dict from user id to set of sockets,
  modelled as an association list of duplicate-free listener lists);
- the endpoint bodies: create (batch loop: insert, commit, refresh, publish),
  read, list, update, delete, and the connect/disconnect registry updates of
  the websocket endpoint;
- Python-level failure modes as an explicit error type: json.dumps applied to
  a Pydantic model instance raises TypeError; dict indexing and set.remove
  raise KeyError on a missing key; attribute access on None raises
  AttributeError; HTTPException(404) and Pydantic request validation errors
  are separate constructors; a failing database commit is a store failure.

Float columns carry no arithmetic in the program, so float values are
modelled as rationals. Datetimes are modelled to second/microsecond
precision, parsed by an embedding of datetime.fromisoformat for the basic
ISO-8601 forms (date, date plus T or space and HH, HH:MM, HH:MM:SS, with an
optional 3- or 6-digit fraction).
-/

deriving instance DecidableEq for Except

/-- Python-level outcomes that escape an endpoint or library call. -/
inductive PyError where
  /-- json.dumps applied to an object that is not JSON-serializable
  (a Pydantic BaseModel instance). -/
  | typeError
  /-- dict indexing or set.remove on a missing key. -/
  | keyError
  /-- attribute access on None. -/
  | attributeError
  /-- HTTPException(status_code=404). -/
  | httpNotFound
  /-- Pydantic request-body validation error (HTTP 422). -/
  | validationError
  /-- persistence engine failure on commit. -/
  | storeFailure
deriving DecidableEq, Repr

/-- A naive (timezone-free) datetime value, as produced by
datetime.fromisoformat on the basic ISO-8601 forms. -/
structure PyDatetime where
  year : Nat
  month : Nat
  day : Nat
  hour : Nat
  minute : Nat
  second : Nat
  microsecond : Nat
deriving DecidableEq, Repr

def leapYear (y : Nat) : Bool :=
  (y % 4 == 0 && y % 100 != 0) || y % 400 == 0

def daysInMonth (y m : Nat) : Nat :=
  if m == 2 then (if leapYear y then 29 else 28)
  else if m == 4 || m == 6 || m == 9 || m == 11 then 30
  else 31

def digitVal (c : Char) : Nat := c.toNat - 48

def digit2 (a b : Char) : Option Nat :=
  if a.isDigit && b.isDigit then some (digitVal a * 10 + digitVal b) else none

def digit4 (a b c d : Char) : Option Nat :=
  if a.isDigit && b.isDigit && c.isDigit && d.isDigit then
    some (((digitVal a * 10 + digitVal b) * 10 + digitVal c) * 10 + digitVal d)
  else none

/-- Parse and range-check the YYYY-MM-DD part (datetime enforces
1 <= year <= 9999, 1 <= month <= 12, 1 <= day <= days in month). -/
def parseDate (y1 y2 y3 y4 m1 m2 d1 d2 : Char) : Option (Nat × Nat × Nat) := do
  let y ← digit4 y1 y2 y3 y4
  let m ← digit2 m1 m2
  let d ← digit2 d1 d2
  if 1 ≤ y && y ≤ 9999 && 1 ≤ m && m ≤ 12 && 1 ≤ d && d ≤ daysInMonth y m then
    some (y, m, d)
  else none

/-- Fractional seconds: fromisoformat accepts exactly 3 digits
(milliseconds) or 6 digits (microseconds). -/
def parseFrac (cs : List Char) : Option Nat :=
  if cs.all (·.isDigit) then
    match cs with
    | [a, b, c] => some ((digitVal a * 100 + digitVal b * 10 + digitVal c) * 1000)
    | [a, b, c, d, e, f] =>
        some (((((digitVal a * 10 + digitVal b) * 10 + digitVal c) * 10 +
          digitVal d) * 10 + digitVal e) * 10 + digitVal f)
    | _ => none
  else none

/-- Parse and range-check the time-of-day part: HH, HH:MM, HH:MM:SS,
optionally followed by a 3- or 6-digit fraction. -/
def parseTime : List Char → Option (Nat × Nat × Nat × Nat)
  | [h1, h2] => do
      let h ← digit2 h1 h2
      if h ≤ 23 then some (h, 0, 0, 0) else none
  | [h1, h2, ':', m1, m2] => do
      let h ← digit2 h1 h2
      let m ← digit2 m1 m2
      if h ≤ 23 && m ≤ 59 then some (h, m, 0, 0) else none
  | [h1, h2, ':', m1, m2, ':', s1, s2] => do
      let h ← digit2 h1 h2
      let m ← digit2 m1 m2
      let s ← digit2 s1 s2
      if h ≤ 23 && m ≤ 59 && s ≤ 59 then some (h, m, s, 0) else none
  | h1 :: h2 :: ':' :: m1 :: m2 :: ':' :: s1 :: s2 :: '.' :: frac => do
      let h ← digit2 h1 h2
      let m ← digit2 m1 m2
      let s ← digit2 s1 s2
      let us ← parseFrac frac
      if h ≤ 23 && m ≤ 59 && s ≤ 59 then some (h, m, s, us) else none
  | _ => none

/-- Embedding of datetime.fromisoformat for the basic ISO-8601 forms:
YYYY-MM-DD, optionally followed by T or a space and a time of day. -/
def fromisoformat (s : String) : Option PyDatetime :=
  match s.toList with
  | [y1, y2, y3, y4, '-', m1, m2, '-', d1, d2] => do
      let (y, mo, d) ← parseDate y1 y2 y3 y4 m1 m2 d1 d2
      some ⟨y, mo, d, 0, 0, 0, 0⟩
  | y1 :: y2 :: y3 :: y4 :: '-' :: m1 :: m2 :: '-' :: d1 :: d2 :: sep :: rest =>
      if sep == 'T' || sep == ' ' then do
        let (y, mo, d) ← parseDate y1 y2 y3 y4 m1 m2 d1 d2
        let (h, mi, sec, us) ← parseTime rest
        some ⟨y, mo, d, h, mi, sec, us⟩
      else none
  | _ => none

/-- Nested accelerometer payload (Pydantic model AccelerometerData). -/
structure AccelerometerData where
  x : Rat
  y : Rat
  z : Rat
deriving DecidableEq, Repr

/-- Nested GPS payload (Pydantic model GpsData). -/
structure GpsData where
  latitude : Rat
  longitude : Rat
deriving DecidableEq, Repr

/-- Validated agent payload (Pydantic model AgentData), timestamp already
parsed to a datetime. -/
structure AgentData where
  user_id : Int
  accelerometer : AccelerometerData
  gps : GpsData
  timestamp : PyDatetime
deriving DecidableEq, Repr

/-- Validated request/response unit (Pydantic model ProcessedAgentData).
Note: this model has no id field. -/
structure ProcessedAgentData where
  road_state : String
  agent_data : AgentData
deriving DecidableEq, Repr

/-- Wire-form agent payload: the timestamp is still the raw string
received over HTTP. -/
structure RawAgentData where
  user_id : Int
  accelerometer : AccelerometerData
  gps : GpsData
  timestamp : String
deriving DecidableEq, Repr

/-- Wire-form request item. -/
structure RawProcessedAgentData where
  road_state : String
  agent_data : RawAgentData
deriving DecidableEq, Repr

/-- Embedding of AgentData.check_timestamp (main.py lines 70-80) applied to a
string wire value: datetime.fromisoformat on success, otherwise a ValueError
that Pydantic surfaces as a request validation error. -/
def check_timestamp (value : String) : Except PyError PyDatetime :=
  match fromisoformat value with
  | some dt => .ok dt
  | none => .error .validationError

/-- Validate one wire item into a ProcessedAgentData, as Pydantic does when
parsing the request body of the create endpoint. -/
def validateItem (r : RawProcessedAgentData) : Except PyError ProcessedAgentData := do
  let ts ← check_timestamp r.agent_data.timestamp
  .ok ⟨r.road_state, ⟨r.agent_data.user_id, r.agent_data.accelerometer,
    r.agent_data.gps, ts⟩⟩

/-- Validate the whole request body (List of ProcessedAgentData): FastAPI
rejects the entire request if any item fails validation, before the endpoint
body runs. -/
def validateBatch : List RawProcessedAgentData → Except PyError (List ProcessedAgentData)
  | [] => .ok []
  | r :: rest => do
      let item ← validateItem r
      let items ← validateBatch rest
      .ok (item :: items)


/-- Embedding of the SQLAlchemy row type ProcessedAgentDataDB
(main.py lines 24-35): flat columns, integer primary key. -/
structure ProcessedAgentDataDB where
  id : Nat
  road_state : String
  user_id : Int
  x : Rat
  y : Rat
  z : Rat
  latitude : Rat
  longitude : Rat
  timestamp : PyDatetime
deriving DecidableEq, Repr

/-- The row the create endpoint inserts for a request item
(main.py lines 122-131), with the primary key the store assigns. -/
def toRow (n : Nat) (item : ProcessedAgentData) : ProcessedAgentDataDB :=
  { id := n
    road_state := item.road_state
    user_id := item.agent_data.user_id
    x := item.agent_data.accelerometer.x
    y := item.agent_data.accelerometer.y
    z := item.agent_data.accelerometer.z
    latitude := item.agent_data.gps.latitude
    longitude := item.agent_data.gps.longitude
    timestamp := item.agent_data.timestamp }

/-- The response model the read/update/delete endpoints build from a row
(main.py lines 148-154): id is dropped, nested models are rebuilt. -/
def rowToModel (r : ProcessedAgentDataDB) : ProcessedAgentData :=
  { road_state := r.road_state
    agent_data :=
      { user_id := r.user_id
        accelerometer := { x := r.x, y := r.y, z := r.z }
        gps := { latitude := r.latitude, longitude := r.longitude }
        timestamp := r.timestamp } }

/-- Database session state: the processed_agent_data table in insertion order
plus the auto-increment primary-key counter. -/
structure Database where
  rows : List ProcessedAgentDataDB
  nextId : Nat
deriving DecidableEq, Repr

/-- Well-formedness the auto-increment key discipline maintains: every stored
id is below the counter, and ids are pairwise distinct. -/
def Database.WF (db : Database) : Prop :=
  (∀ r ∈ db.rows, r.id < db.nextId) ∧ (db.rows.map (fun r => r.id)).Nodup

instance (db : Database) : Decidable db.WF := by
  unfold Database.WF; infer_instance

/-- query(...).filter(ProcessedAgentDataDB.id == i).first(): the first stored
row with the given id, or none. -/
def dbFirst (db : Database) (i : Nat) : Option ProcessedAgentDataDB :=
  db.rows.find? (fun r => r.id == i)

/-- Embedding of read_processed_agent_data (main.py lines 140-156). The body
never checks first() for None: on a missing id the attribute access
db_data.user_id raises AttributeError (an unhandled 500), not a 404. -/
def read_processed_agent_data (db : Database) (i : Nat) :
    Except PyError ProcessedAgentData :=
  match dbFirst db i with
  | none => .error .attributeError
  | some r => .ok (rowToModel r)

/-- Embedding of list_processed_agent_data (main.py lines 160-173). -/
def list_processed_agent_data (db : Database) : List ProcessedAgentData :=
  db.rows.map rowToModel

/-- Replace the first row carrying the given id with the supplied fields,
keeping that id; none when no row matches (mirrors first() then field
assignments, main.py lines 186-198). -/
def updateFirst (i : Nat) (data : ProcessedAgentData) :
    List ProcessedAgentDataDB → Option (List ProcessedAgentDataDB)
  | [] => none
  | r :: rest =>
      if r.id == i then some (toRow i data :: rest)
      else (updateFirst i data rest).map (fun rest2 => r :: rest2)

/-- Embedding of update_processed_agent_data (main.py lines 180-212): 404 on
a missing id with the session untouched; otherwise every non-key column is
overwritten from the supplied data and the response is rebuilt from the
updated row. -/
def update_processed_agent_data (i : Nat) (data : ProcessedAgentData)
    (db : Database) : Except PyError ProcessedAgentData × Database :=
  match updateFirst i data db.rows with
  | none => (.error .httpNotFound, db)
  | some rows2 => (.ok (rowToModel (toRow i data)), ⟨rows2, db.nextId⟩)

/-- Remove the first row carrying the given id, returning it and the rest;
none when no row matches. -/
def deleteFirst (i : Nat) :
    List ProcessedAgentDataDB → Option (ProcessedAgentDataDB × List ProcessedAgentDataDB)
  | [] => none
  | r :: rest =>
      if r.id == i then some (r, rest)
      else (deleteFirst i rest).map (fun p => (p.1, r :: p.2))

/-- Embedding of delete_processed_agent_data (main.py lines 219-239): 404 on
a missing id with the session untouched; otherwise the row is removed and
returned as the response. -/
def delete_processed_agent_data (i : Nat) (db : Database) :
    Except PyError ProcessedAgentData × Database :=
  match deleteFirst i db.rows with
  | none => (.error .httpNotFound, db)
  | some p => (.ok (rowToModel p.1), ⟨p.2, db.nextId⟩)

/-- A live WebSocket connection, identified by an opaque handle. -/
abbrev Listener := Nat

/-- The module-level subscriptions dict (main.py line 89): user id to the
set of connected sockets, modelled as an association list of
duplicate-free listener lists. -/
abbrev Subscriptions := List (Int × List Listener)

def lookupSubs : Subscriptions → Int → Option (List Listener)
  | [], _ => none
  | (k, ls) :: rest, uid => if k = uid then some ls else lookupSubs rest uid

def setSubs : Subscriptions → Int → List Listener → Subscriptions
  | [], _, _ => []
  | (k, ls) :: rest, uid, new =>
      if k = uid then (k, new) :: rest else (k, ls) :: setSubs rest uid new

/-- Registry update on connection open (main.py lines 96-98): create the
entry when missing, then set.add the socket (idempotent). -/
def subscribe (subs : Subscriptions) (uid : Int) (ws : Listener) : Subscriptions :=
  match lookupSubs subs uid with
  | none => subs ++ [(uid, [ws])]
  | some ls => if ws ∈ ls then subs else setSubs subs uid (ls ++ [ws])

/-- Registry update on disconnect (main.py lines 102-103):
subscriptions[user_id].remove(websocket). Dict indexing raises KeyError when
the user entry is missing, and set.remove raises KeyError when the socket is
not a member; neither case is a silent no-op. -/
def unsubscribe (subs : Subscriptions) (uid : Int) (ws : Listener) :
    Except PyError Subscriptions :=
  match lookupSubs subs uid with
  | none => .error .keyError
  | some ls =>
      if ws ∈ ls then .ok (setSubs subs uid (ls.erase ws))
      else .error .keyError

/-- json.dumps applied to a Pydantic BaseModel instance: BaseModel is not a
dict, list, str, number or None and no default encoder is supplied, so the
standard-library encoder raises TypeError whatever the field values are
(main.py line 110 passes the model object itself). -/
def json_dumps_model (_data : ProcessedAgentData) : Except PyError String :=
  .error .typeError

/-- The delivery loop body of send_data_to_subscribers: for each socket,
evaluate json.dumps(data) (which raises) and then await send_json; the first
exception aborts the loop and propagates. On a successful delivery the pair
(socket, payload) is recorded. -/
def send_loop (data : ProcessedAgentData) :
    List Listener → Except PyError (List (Listener × String))
  | [] => .ok []
  | ws :: rest => do
      let s ← json_dumps_model data
      let tl ← send_loop data rest
      .ok ((ws, s) :: tl)

/-- Embedding of send_data_to_subscribers (main.py lines 107-110): when the
user id has an entry, iterate its socket set and push the serialized data;
there is no exception handling, so a failure propagates to the caller. -/
def send_data_to_subscribers (subs : Subscriptions) (user_id : Int)
    (data : ProcessedAgentData) : Except PyError (List (Listener × String)) :=
  match lookupSubs subs user_id with
  | none => .ok []
  | some ls => send_loop data ls

/-- Observable steps of the create endpoint, in program order. A publish
attempt records the database state at the moment it runs and the outcome of
the delivery loop. -/
inductive TraceEvent where
  | committed (row : ProcessedAgentDataDB)
  | publishAttempt (row : ProcessedAgentDataDB) (dbAtPublish : Database)
      (result : Except PyError (List (Listener × String)))
deriving DecidableEq, Repr

/-- Durable write of one item: the committed insert with the id the
auto-increment key assigns, advancing the counter. -/
def insertRow (db : Database) (item : ProcessedAgentData) : Database :=
  ⟨db.rows ++ [toRow db.nextId item], db.nextId + 1⟩

/-- Embedding of the create endpoint body (main.py lines 116-135): for each
item in order, build the row, add and commit (commitOk says whether the
engine accepts the commit; on failure the pending insert is rolled back and
the error propagates), refresh to obtain the assigned id, then publish the
request item to the subscribers of its user id. A publish failure also
propagates, aborting the rest of the batch; committed items stay. -/
def create_processed_agent_data (commitOk : Nat → Bool) (subs : Subscriptions)
    (db : Database) :
    List ProcessedAgentData → Database × List TraceEvent × Except PyError Unit
  | [] => (db, [], .ok ())
  | item :: rest =>
      if commitOk db.nextId then
        match send_data_to_subscribers subs item.agent_data.user_id item with
        | .ok v =>
            ((create_processed_agent_data commitOk subs (insertRow db item) rest).1,
             .committed (toRow db.nextId item) ::
               .publishAttempt (toRow db.nextId item) (insertRow db item) (.ok v) ::
               (create_processed_agent_data commitOk subs (insertRow db item) rest).2.1,
             (create_processed_agent_data commitOk subs (insertRow db item) rest).2.2)
        | .error e =>
            (insertRow db item,
             [.committed (toRow db.nextId item),
              .publishAttempt (toRow db.nextId item) (insertRow db item) (.error e)],
             .error e)
      else (db, [], .error .storeFailure)

/-- The POST /processed_agent_data/ route as a collaborator sees it: FastAPI
validates the whole body first (no endpoint side effects on a validation
error), then runs the endpoint body. -/
def ingest_endpoint (commitOk : Nat → Bool) (subs : Subscriptions)
    (db : Database) (raws : List RawProcessedAgentData) :
    Database × List TraceEvent × Except PyError Unit :=
  match validateBatch raws with
  | .error e => (db, [], .error e)
  | .ok items => create_processed_agent_data commitOk subs db items

/-- Rows the batch loop inserts for consecutive ids starting at n. -/
def rowsFrom (n : Nat) : List ProcessedAgentData → List ProcessedAgentDataDB
  | [] => []
  | item :: rest => toRow n item :: rowsFrom (n + 1) rest

/-- The empty store at service start. -/
def emptyDb : Database := ⟨[], 0⟩

/-- A persistence engine that accepts every commit. -/
def alwaysCommit : Nat → Bool := fun _ => true

def ts0 : PyDatetime := ⟨2024, 1, 1, 12, 0, 0, 0⟩

/-- A valid request item for agent 5. -/
def sampleItem : ProcessedAgentData := ⟨"dry", ⟨5, ⟨1, 2, 3⟩, ⟨10.5, 20.5⟩, ts0⟩⟩

/-- The nested round-trip record of the testable properties, agent 7. -/
def specItem : ProcessedAgentData :=
  ⟨"dry", ⟨7, ⟨1, 2, 3⟩, ⟨10.5, 20.5⟩, ⟨2024, 1, 1, 0, 0, 0, 0⟩⟩⟩

/-- An update payload that changes every field, including user_id. -/
def otherItem : ProcessedAgentData :=
  ⟨"wet", ⟨9, ⟨4, 5, 6⟩, ⟨1.5, 2.5⟩, ⟨2025, 6, 30, 23, 59, 59, 0⟩⟩⟩

def rawBad : RawProcessedAgentData :=
  ⟨"dry", ⟨5, ⟨1, 2, 3⟩, ⟨10.5, 20.5⟩, "not-a-date"⟩⟩

def rawGood : RawProcessedAgentData :=
  ⟨"dry", ⟨5, ⟨1, 2, 3⟩, ⟨10.5, 20.5⟩, "2024-01-01T12:00:00"⟩⟩

/-- One listener subscribed for agent 5. -/
def subsOne : Subscriptions := [(5, [0])]

/-- Two listeners subscribed for agent 5. -/
def subsTwo : Subscriptions := [(5, [0, 1])]


/-! Helper lemmas about the store. -/

theorem find?_append_own {l : List ProcessedAgentDataDB} {n : Nat}
    (h : ∀ r ∈ l, r.id < n) {row : ProcessedAgentDataDB} (hrow : row.id = n) :
    (l ++ [row]).find? (fun r => r.id == n) = some row := by
  induction l with
  | nil => simp [List.find?, hrow]
  | cons a l ih =>
      have ha : (a.id == n) = false := by
        simp only [beq_eq_false_iff_ne]
        exact Nat.ne_of_lt (h a (List.mem_cons_self a l))
      simp only [List.cons_append, List.find?_cons, ha]
      exact ih (fun r hr => h r (List.mem_cons_of_mem a hr))

theorem WF_insertRow {db : Database} (hwf : db.WF) (item : ProcessedAgentData) :
    (insertRow db item).WF := by
  obtain ⟨hlt, hnd⟩ := hwf
  constructor
  · intro r hr
    rcases List.mem_append.mp hr with h | h
    · exact Nat.lt_succ_of_lt (hlt r h)
    · rcases List.mem_singleton.mp h with rfl
      exact Nat.lt_succ_self _
  · show (List.map (fun r => r.id) (db.rows ++ [toRow db.nextId item])).Nodup
    rw [List.map_append, List.nodup_append]
    refine ⟨hnd, List.nodup_singleton _, ?_⟩
    intro a ha hb
    rcases List.mem_map.mp ha with ⟨r, hr, rfl⟩
    rcases List.mem_singleton.mp hb with h
    exact absurd (h.trans rfl) (Nat.ne_of_lt (hlt r hr))

theorem dbFirst_insertRow {db : Database} (hwf : db.WF) (item : ProcessedAgentData) :
    dbFirst (insertRow db item) db.nextId = some (toRow db.nextId item) := by
  unfold dbFirst insertRow
  exact find?_append_own hwf.1 rfl

theorem read_insertRow {db : Database} (hwf : db.WF) (item : ProcessedAgentData) :
    read_processed_agent_data (insertRow db item) db.nextId = .ok item := by
  unfold read_processed_agent_data
  rw [dbFirst_insertRow hwf item]
  rfl

theorem updateFirst_eq_none {i : Nat} {data : ProcessedAgentData} :
    ∀ {l : List ProcessedAgentDataDB}, l.find? (fun r => r.id == i) = none →
      updateFirst i data l = none := by
  intro l
  induction l with
  | nil => intro _; rfl
  | cons a l ih =>
      intro h
      rw [List.find?_cons] at h
      unfold updateFirst
      cases ha : (a.id == i) with
      | true => rw [ha] at h; exact absurd h (by simp)
      | false => rw [ha] at h; simp [ha, ih h]

theorem deleteFirst_eq_none {i : Nat} :
    ∀ {l : List ProcessedAgentDataDB}, l.find? (fun r => r.id == i) = none →
      deleteFirst i l = none := by
  intro l
  induction l with
  | nil => intro _; rfl
  | cons a l ih =>
      intro h
      rw [List.find?_cons] at h
      unfold deleteFirst
      cases ha : (a.id == i) with
      | true => rw [ha] at h; exact absurd h (by simp)
      | false => rw [ha] at h; simp [ha, ih h]

theorem updateFirst_spec {i : Nat} {data : ProcessedAgentData} :
    ∀ {l : List ProcessedAgentDataDB} {row : ProcessedAgentDataDB},
      l.find? (fun r => r.id == i) = some row →
      ∃ l2, updateFirst i data l = some l2 ∧
        l2.find? (fun r => r.id == i) = some (toRow i data) ∧
        l2.length = l.length ∧
        ∀ r ∈ l, r.id ≠ i → r ∈ l2 := by
  intro l
  induction l with
  | nil => intro row h; exact absurd h (by simp [List.find?])
  | cons a l ih =>
      intro row h
      rw [List.find?_cons] at h
      cases ha : (a.id == i) with
      | true =>
          refine ⟨toRow i data :: l, ?_, ?_, rfl, ?_⟩
          · unfold updateFirst; rw [ha]; simp
          · have : ((toRow i data).id == i) = true := by simp [toRow]
            rw [List.find?_cons, this]
          · intro r hr hri
            rcases List.mem_cons.mp hr with rfl | hr2
            · exact absurd (eq_of_beq ha) hri
            · exact List.mem_cons_of_mem _ hr2
      | false =>
          rw [ha] at h
          obtain ⟨l2, hu, hf, hlen, hmem⟩ := ih h
          refine ⟨a :: l2, ?_, ?_, ?_, ?_⟩
          · unfold updateFirst; rw [ha]; simp [hu]
          · rw [List.find?_cons, ha]; exact hf
          · simp [hlen]
          · intro r hr hri
            rcases List.mem_cons.mp hr with rfl | hr2
            · exact List.mem_cons_self _ _
            · exact List.mem_cons_of_mem _ (hmem r hr2 hri)

/-- Claim C1: evaluation of the create endpoint at the failing input — one
valid item for agent 5 with one listener subscribed. The row is committed
with its assigned id, but the value handed to the dispatcher is the request
item itself (the ProcessedAgentData model, which has no id field), and
json.dumps raises TypeError on it, so the publish attempt delivers nothing
and the error escapes the endpoint. The claimed delivery of the persisted
record including its store-assigned id never happens. -/
theorem claim_C1 :
    create_processed_agent_data alwaysCommit subsOne emptyDb [sampleItem] =
      (⟨[toRow 0 sampleItem], 1⟩,
       [.committed (toRow 0 sampleItem),
        .publishAttempt (toRow 0 sampleItem) ⟨[toRow 0 sampleItem], 1⟩
          (.error .typeError)],
       .error .typeError) ∧
    send_data_to_subscribers subsOne 5 sampleItem = .error .typeError := by
  exact ⟨rfl, rfl⟩

/-- Claim C2, counterexample: with two listeners subscribed for agent 5, the
delivery failure at the first listener aborts the loop (the second listener
receives nothing) and the error propagates to the create endpoint, whose
outcome is the error rather than success — the dispatcher does not recover
the failure locally. -/
theorem claim_C2_counterexample :
    send_data_to_subscribers subsTwo 5 sampleItem = .error .typeError ∧
    create_processed_agent_data alwaysCommit subsTwo emptyDb [sampleItem] =
      (⟨[toRow 0 sampleItem], 1⟩,
       [.committed (toRow 0 sampleItem),
        .publishAttempt (toRow 0 sampleItem) ⟨[toRow 0 sampleItem], 1⟩
          (.error .typeError)],
       .error .typeError) ∧
    (Except.error PyError.typeError : Except PyError Unit) ≠ .ok () := by
  exact ⟨rfl, rfl, by decide⟩

/-- Claim C2, amended: whenever at least one listener is registered for the
item's user id and the commit succeeds, the failure inside the delivery loop
propagates out of the dispatcher to the ingestion caller, aborting delivery
to every listener, while the committed row stays in the store. -/
theorem claim_C2 (commitOk : Nat → Bool) (subs : Subscriptions) (db : Database)
    (item : ProcessedAgentData) (l : Listener) (ls : List Listener)
    (hsubs : lookupSubs subs item.agent_data.user_id = some (l :: ls))
    (hcommit : commitOk db.nextId = true) :
    create_processed_agent_data commitOk subs db [item] =
      (insertRow db item,
       [.committed (toRow db.nextId item),
        .publishAttempt (toRow db.nextId item) (insertRow db item)
          (.error .typeError)],
       .error .typeError) := by
  have hsend : send_data_to_subscribers subs item.agent_data.user_id item =
      .error .typeError := by
    unfold send_data_to_subscribers
    rw [hsubs]
    rfl
  unfold create_processed_agent_data
  rw [hcommit, hsend]
  rfl

/-- Witness for claim C2 at a concrete registry and item. -/
theorem claim_C2_witness :
    create_processed_agent_data alwaysCommit subsTwo emptyDb [sampleItem] =
      (insertRow emptyDb sampleItem,
       [.committed (toRow 0 sampleItem),
        .publishAttempt (toRow 0 sampleItem) (insertRow emptyDb sampleItem)
          (.error .typeError)],
       .error .typeError) :=
  claim_C2 alwaysCommit subsTwo emptyDb sampleItem 0 [1] rfl rfl

/-- Claim C4: a create request whose only item carries timestamp
"not-a-date" is rejected as a validation error before the endpoint body
runs — no row is stored and no publish happens — while the same request
with timestamp "2024-01-01T12:00:00" parses as ISO-8601, stores the row and
reaches the publish step. -/
theorem claim_C4 :
    validateItem rawBad = .error .validationError ∧
    ingest_endpoint alwaysCommit [] emptyDb [rawBad] =
      (emptyDb, [], .error .validationError) ∧
    check_timestamp "2024-01-01T12:00:00" = .ok ts0 ∧
    ingest_endpoint alwaysCommit [] emptyDb [rawGood] =
      (⟨[toRow 0 sampleItem], 1⟩,
       [.committed (toRow 0 sampleItem),
        .publishAttempt (toRow 0 sampleItem) ⟨[toRow 0 sampleItem], 1⟩ (.ok [])],
       .ok ()) := by
  exact ⟨rfl, rfl, rfl, rfl⟩

/-- Claim C5, counterexample: on an id absent from the store, update and
delete answer with the 404 not-found signal, but the read endpoint never
checks first() for None and dies with an AttributeError — not a not-found
condition the caller can branch on. -/
theorem claim_C5_counterexample :
    read_processed_agent_data emptyDb 1 = .error .attributeError ∧
    PyError.attributeError ≠ PyError.httpNotFound ∧
    update_processed_agent_data 1 sampleItem emptyDb =
      (.error .httpNotFound, emptyDb) ∧
    delete_processed_agent_data 1 emptyDb = (.error .httpNotFound, emptyDb) := by
  exact ⟨rfl, by decide, rfl, rfl⟩

/-- Claim C5, amended: for every id absent from the store, update and delete
report the 404 not-found condition and leave the store unchanged, while read
raises an AttributeError (an unhandled internal error, not a not-found
signal), also leaving the store unchanged. -/
theorem claim_C5 (db : Database) (i : Nat) (data : ProcessedAgentData)
    (habs : dbFirst db i = none) :
    read_processed_agent_data db i = .error .attributeError ∧
    update_processed_agent_data i data db = (.error .httpNotFound, db) ∧
    delete_processed_agent_data i db = (.error .httpNotFound, db) := by
  refine ⟨?_, ?_, ?_⟩
  · unfold read_processed_agent_data
    rw [habs]
  · unfold update_processed_agent_data
    rw [updateFirst_eq_none habs]
  · unfold delete_processed_agent_data
    rw [deleteFirst_eq_none habs]

/-- Witness for claim C5 at a store with one row and a missing id. -/
theorem claim_C5_witness :
    read_processed_agent_data ⟨[toRow 0 sampleItem], 1⟩ 7 = .error .attributeError ∧
    update_processed_agent_data 7 otherItem ⟨[toRow 0 sampleItem], 1⟩ =
      (.error .httpNotFound, ⟨[toRow 0 sampleItem], 1⟩) ∧
    delete_processed_agent_data 7 ⟨[toRow 0 sampleItem], 1⟩ =
      (.error .httpNotFound, ⟨[toRow 0 sampleItem], 1⟩) :=
  claim_C5 ⟨[toRow 0 sampleItem], 1⟩ 7 otherItem rfl

/-- Claim C9, counterexample: the disconnect cleanup is not a no-op on an
absent registration — dict indexing raises KeyError when the agent entry is
missing, and set.remove raises KeyError when the listener is not a member. -/
theorem claim_C9_counterexample :
    unsubscribe [] 1 0 = .error .keyError ∧
    unsubscribe [(1, [5])] 1 0 = .error .keyError := by
  exact ⟨rfl, rfl⟩

/-- Claim C9, amended: unsubscribe removes the listener from the set
registered for the agent id when it is present, but raises a KeyError —
rather than being a no-op — when the agent entry or the listener is absent
from the registry. -/
theorem claim_C9 (subs : Subscriptions) (uid : Int) (ws : Listener) :
    (lookupSubs subs uid = none → unsubscribe subs uid ws = .error .keyError) ∧
    (∀ ls, lookupSubs subs uid = some ls → ws ∉ ls →
      unsubscribe subs uid ws = .error .keyError) ∧
    (∀ ls, lookupSubs subs uid = some ls → ws ∈ ls →
      unsubscribe subs uid ws = .ok (setSubs subs uid (ls.erase ws))) := by
  refine ⟨?_, ?_, ?_⟩
  · intro h; unfold unsubscribe; rw [h]
  · intro ls h hmem; unfold unsubscribe; rw [h]; simp [hmem]
  · intro ls h hmem; unfold unsubscribe; rw [h]; simp [hmem]

/-- Witness for claim C9: a KeyError case and a successful removal. -/
theorem claim_C9_witness :
    unsubscribe [(2, [7])] 2 9 = .error .keyError ∧
    unsubscribe [(2, [7, 9])] 2 9 = .ok [(2, [7])] :=
  ⟨(claim_C9 [(2, [7])] 2 9).2.1 [7] rfl (by decide),
   (claim_C9 [(2, [7, 9])] 2 9).2.2 [7, 9] rfl (by decide)⟩

/-- Claim C7: creating a valid record R against a well-formed store (commit
accepted) stores exactly one new row whose assigned id is the current
counter; reading that id back yields R itself — every field equal, nested
motion and position included, the response model carrying no id — the
assigned id was never used before, and the store stays well-formed, so ids
remain pairwise distinct forever. -/
theorem claim_C7 (commitOk : Nat → Bool) (subs : Subscriptions) (db : Database)
    (R : ProcessedAgentData) (hwf : db.WF) (hcommit : commitOk db.nextId = true) :
    (create_processed_agent_data commitOk subs db [R]).1 = insertRow db R ∧
    read_processed_agent_data (create_processed_agent_data commitOk subs db [R]).1
      db.nextId = .ok R ∧
    db.nextId ∉ db.rows.map (fun r => r.id) ∧
    (create_processed_agent_data commitOk subs db [R]).1.rows.map (fun r => r.id) =
      db.rows.map (fun r => r.id) ++ [db.nextId] ∧
    (create_processed_agent_data commitOk subs db [R]).1.WF := by
  have h1 : (create_processed_agent_data commitOk subs db [R]).1 = insertRow db R := by
    unfold create_processed_agent_data
    rw [hcommit]
    cases hs : send_data_to_subscribers subs R.agent_data.user_id R with
    | ok v => rfl
    | error e => rfl
  refine ⟨h1, ?_, ?_, ?_, ?_⟩
  · rw [h1]
    exact read_insertRow hwf R
  · intro hmem
    rcases List.mem_map.mp hmem with ⟨r, hr, hid⟩
    exact absurd hid (Nat.ne_of_lt (hwf.1 r hr))
  · rw [h1]
    show List.map (fun r => r.id) (db.rows ++ [toRow db.nextId R]) = _
    rw [List.map_append]
    rfl
  · rw [h1]
    exact WF_insertRow hwf R

/-- Witness for claim C7: the nested round-trip record of the spec, created
against the empty store, reads back identically under id 0. -/
theorem claim_C7_witness :
    (create_processed_agent_data alwaysCommit [] emptyDb [specItem]).1 =
      insertRow emptyDb specItem ∧
    read_processed_agent_data
      (create_processed_agent_data alwaysCommit [] emptyDb [specItem]).1 0 =
      .ok specItem ∧
    (0 : Nat) ∉ emptyDb.rows.map (fun r => r.id) ∧
    (create_processed_agent_data alwaysCommit [] emptyDb [specItem]).1.rows.map
      (fun r => r.id) = emptyDb.rows.map (fun r => r.id) ++ [0] ∧
    (create_processed_agent_data alwaysCommit [] emptyDb [specItem]).1.WF :=
  claim_C7 alwaysCommit [] emptyDb specItem (by decide) rfl

/-- Claim C8: updating an existing id keeps that id, overwrites every other
stored column — road_state, user_id (the agent id is overwritable in the
current contract), motion x y z, position latitude longitude, timestamp —
with the supplied values, returns the updated record, and touches no other
row; reading the id afterwards yields the supplied record. -/
theorem claim_C8 (db : Database) (i : Nat) (row : ProcessedAgentDataDB)
    (data : ProcessedAgentData) (hfind : dbFirst db i = some row) :
    (update_processed_agent_data i data db).1 = .ok data ∧
    dbFirst (update_processed_agent_data i data db).2 i = some (toRow i data) ∧
    read_processed_agent_data (update_processed_agent_data i data db).2 i =
      .ok data ∧
    (update_processed_agent_data i data db).2.nextId = db.nextId ∧
    (update_processed_agent_data i data db).2.rows.length = db.rows.length ∧
    ∀ r ∈ db.rows, r.id ≠ i → r ∈ (update_processed_agent_data i data db).2.rows := by
  have hfind2 : db.rows.find? (fun r => r.id == i) = some row := hfind
  obtain ⟨l2, hu, hf, hlen, hmem⟩ := @updateFirst_spec i data db.rows row hfind2
  have hup : update_processed_agent_data i data db =
      (.ok (rowToModel (toRow i data)), ⟨l2, db.nextId⟩) := by
    unfold update_processed_agent_data
    rw [hu]
  rw [hup]
  refine ⟨rfl, hf, ?_, rfl, hlen, hmem⟩
  show read_processed_agent_data ⟨l2, db.nextId⟩ i = .ok data
  unfold read_processed_agent_data
  rw [show dbFirst ⟨l2, db.nextId⟩ i = some (toRow i data) from hf]
  rfl

/-- Witness for claim C8: a one-row store, updated under id 3 with a payload
that changes every field including user_id. -/
theorem claim_C8_witness :
    (update_processed_agent_data 3 otherItem ⟨[toRow 3 sampleItem], 4⟩).1 =
      .ok otherItem ∧
    dbFirst (update_processed_agent_data 3 otherItem ⟨[toRow 3 sampleItem], 4⟩).2 3 =
      some (toRow 3 otherItem) ∧
    read_processed_agent_data
      (update_processed_agent_data 3 otherItem ⟨[toRow 3 sampleItem], 4⟩).2 3 =
      .ok otherItem ∧
    (update_processed_agent_data 3 otherItem ⟨[toRow 3 sampleItem], 4⟩).2.nextId = 4 ∧
    (update_processed_agent_data 3 otherItem ⟨[toRow 3 sampleItem], 4⟩).2.rows.length =
      (⟨[toRow 3 sampleItem], 4⟩ : Database).rows.length ∧
    ∀ r ∈ (⟨[toRow 3 sampleItem], 4⟩ : Database).rows, r.id ≠ 3 →
      r ∈ (update_processed_agent_data 3 otherItem ⟨[toRow 3 sampleItem], 4⟩).2.rows :=
  claim_C8 ⟨[toRow 3 sampleItem], 4⟩ 3 (toRow 3 sampleItem) otherItem rfl

theorem create_cons (commitOk : Nat → Bool) (subs : Subscriptions) (db : Database)
    (item : ProcessedAgentData) (rest : List ProcessedAgentData) :
    create_processed_agent_data commitOk subs db (item :: rest) =
      if commitOk db.nextId then
        match send_data_to_subscribers subs item.agent_data.user_id item with
        | .ok v =>
            ((create_processed_agent_data commitOk subs (insertRow db item) rest).1,
             .committed (toRow db.nextId item) ::
               .publishAttempt (toRow db.nextId item) (insertRow db item) (.ok v) ::
               (create_processed_agent_data commitOk subs (insertRow db item) rest).2.1,
             (create_processed_agent_data commitOk subs (insertRow db item) rest).2.2)
        | .error e =>
            (insertRow db item,
             [.committed (toRow db.nextId item),
              .publishAttempt (toRow db.nextId item) (insertRow db item) (.error e)],
             .error e)
      else (db, [], .error .storeFailure) := rfl

/-- Claim C6: batch ingestion is sequential and per-item. A request-body
validation failure is surfaced before the endpoint body runs, with no store
change and no events (so nothing committed is rolled back); a storage
failure at position k of an otherwise valid batch surfaces the store error
while the k items committed earlier in the batch stay in the store, in the
order received, under consecutive assigned ids. -/
theorem claim_C6 :
    (∀ (commitOk : Nat → Bool) (subs : Subscriptions) (db : Database)
        (raws : List RawProcessedAgentData) (e : PyError),
        validateBatch raws = .error e →
        ingest_endpoint commitOk subs db raws = (db, [], .error e)) ∧
    (∀ (commitOk : Nat → Bool) (db : Database) (items : List ProcessedAgentData)
        (k : Nat), k < items.length →
        (∀ j, j < k → commitOk (db.nextId + j) = true) →
        commitOk (db.nextId + k) = false →
        (create_processed_agent_data commitOk [] db items).1 =
            ⟨db.rows ++ rowsFrom db.nextId (items.take k), db.nextId + k⟩ ∧
          (create_processed_agent_data commitOk [] db items).2.2 =
            .error .storeFailure) := by
  constructor
  · intro commitOk subs db raws e hval
    unfold ingest_endpoint
    rw [hval]
  · intro commitOk db items k
    induction k generalizing db items with
    | zero =>
        intro hk hok hfail
        cases items with
        | nil => simp at hk
        | cons item rest =>
            have hc : commitOk db.nextId = false := by
              have h := hfail
              rwa [Nat.add_zero] at h
            have hcr : create_processed_agent_data commitOk [] db (item :: rest) =
                (db, [], .error .storeFailure) := by
              unfold create_processed_agent_data
              rw [hc]
              rfl
            rw [hcr]
            exact ⟨by simp [rowsFrom], rfl⟩
    | succ k ih =>
        intro hk hok hfail
        cases items with
        | nil => simp at hk
        | cons item rest =>
            have hc : commitOk db.nextId = true := by
              have h := hok 0 (Nat.succ_pos k)
              rwa [Nat.add_zero] at h
            have hcr : create_processed_agent_data commitOk [] db (item :: rest) =
                ((create_processed_agent_data commitOk [] (insertRow db item) rest).1,
                 .committed (toRow db.nextId item) ::
                   .publishAttempt (toRow db.nextId item) (insertRow db item)
                     (.ok []) ::
                   (create_processed_agent_data commitOk []
                     (insertRow db item) rest).2.1,
                 (create_processed_agent_data commitOk []
                   (insertRow db item) rest).2.2) := by
              rw [create_cons, hc]
              rfl
            have hk2 : k < rest.length := by
              simpa using Nat.lt_of_succ_lt_succ (by simpa using hk)
            have hok2 : ∀ j, j < k → commitOk ((insertRow db item).nextId + j) = true := by
              intro j hj
              have h := hok (j + 1) (Nat.succ_lt_succ hj)
              have harith : db.nextId + (j + 1) = (insertRow db item).nextId + j := by
                show db.nextId + (j + 1) = db.nextId + 1 + j
                omega
              rwa [harith] at h
            have hfail2 : commitOk ((insertRow db item).nextId + k) = false := by
              have harith : db.nextId + (k + 1) = (insertRow db item).nextId + k := by
                show db.nextId + (k + 1) = db.nextId + 1 + k
                omega
              rwa [harith] at hfail
            obtain ⟨ih1, ih2⟩ := ih (insertRow db item) rest hk2 hok2 hfail2
            rw [hcr]
            refine ⟨?_, ih2⟩
            show (create_processed_agent_data commitOk [] (insertRow db item) rest).1 = _
            rw [ih1]
            show (⟨(db.rows ++ [toRow db.nextId item]) ++
                rowsFrom (db.nextId + 1) (rest.take k), db.nextId + 1 + k⟩ : Database) =
              ⟨db.rows ++ rowsFrom db.nextId ((item :: rest).take (k + 1)),
                db.nextId + (k + 1)⟩
            rw [List.take_succ_cons]
            show (⟨(db.rows ++ [toRow db.nextId item]) ++
                rowsFrom (db.nextId + 1) (rest.take k), db.nextId + 1 + k⟩ : Database) =
              ⟨db.rows ++ (toRow db.nextId item :: rowsFrom (db.nextId + 1) (rest.take k)),
                db.nextId + (k + 1)⟩
            rw [List.append_assoc, List.singleton_append]
            congr 1
            omega

/-- Witness for claim C6: a batch whose single item fails validation leaves
the empty store untouched, and a two-item batch whose second commit is
refused keeps the first item committed and surfaces the store failure. -/
theorem claim_C6_witness :
    ingest_endpoint alwaysCommit [] emptyDb [rawBad] =
      (emptyDb, [], .error .validationError) ∧
    ((create_processed_agent_data (fun n => n == 0) [] emptyDb
        [sampleItem, otherItem]).1 =
      ⟨emptyDb.rows ++ rowsFrom emptyDb.nextId ([sampleItem, otherItem].take 1),
        emptyDb.nextId + 1⟩ ∧
     (create_processed_agent_data (fun n => n == 0) [] emptyDb
        [sampleItem, otherItem]).2.2 = .error .storeFailure) :=
  ⟨claim_C6.1 alwaysCommit [] emptyDb [rawBad] .validationError rfl,
   claim_C6.2 (fun n => n == 0) emptyDb [sampleItem, otherItem] 1
     (by decide)
     (fun j hj => by
       have : j = 0 := by omega
       subst this
       rfl)
     rfl⟩

/-- Claim C3: in the trace of the create endpoint over a well-formed store,
every publish attempt (for any commit oracle and any registry) sits at a
strictly later position than the commit of the same row — the commit is the
immediately preceding event — and at the database state current when the
publish runs, the committed record is already retrievable by its assigned
id via the read endpoint. -/
theorem claim_C3 (commitOk : Nat → Bool) (subs : Subscriptions)
    (items : List ProcessedAgentData) (db : Database) (hwf : db.WF)
    (i : Nat) (row : ProcessedAgentDataDB) (dbP : Database)
    (res : Except PyError (List (Listener × String)))
    (hev : (create_processed_agent_data commitOk subs db items).2.1.get? i =
      some (.publishAttempt row dbP res)) :
    (1 ≤ i ∧
      (create_processed_agent_data commitOk subs db items).2.1.get? (i - 1) =
        some (.committed row)) ∧
    read_processed_agent_data dbP row.id = .ok (rowToModel row) := by
  induction items generalizing db i with
  | nil =>
      rw [show create_processed_agent_data commitOk subs db [] =
        (db, [], .ok ()) from rfl] at hev
      simp at hev
  | cons item rest ih =>
      cases hc : commitOk db.nextId with
      | false =>
          have hcr : create_processed_agent_data commitOk subs db (item :: rest) =
              (db, [], .error .storeFailure) := by
            rw [create_cons, hc]
            rfl
          rw [hcr] at hev
          simp at hev
      | true =>
          cases hs : send_data_to_subscribers subs item.agent_data.user_id item with
          | error e =>
              have hcr : create_processed_agent_data commitOk subs db (item :: rest) =
                  (insertRow db item,
                   [.committed (toRow db.nextId item),
                    .publishAttempt (toRow db.nextId item) (insertRow db item)
                      (.error e)],
                   .error e) := by
                rw [create_cons, hc, hs]
                rfl
              rw [hcr] at hev ⊢
              cases i with
              | zero => simp at hev
              | succ i1 =>
                  cases i1 with
                  | zero =>
                      rw [List.get?_cons_succ, List.get?_cons_zero] at hev
                      injection hev with h
                      injection h with h1 h2 h3
                      subst h1
                      subst h2
                      subst h3
                      refine ⟨⟨Nat.le_refl 1, rfl⟩, ?_⟩
                      exact read_insertRow hwf item
                  | succ i2 =>
                      rw [List.get?_cons_succ, List.get?_cons_succ] at hev
                      simp at hev
          | ok v =>
              have hcr : create_processed_agent_data commitOk subs db (item :: rest) =
                  ((create_processed_agent_data commitOk subs
                      (insertRow db item) rest).1,
                   .committed (toRow db.nextId item) ::
                     .publishAttempt (toRow db.nextId item) (insertRow db item)
                       (.ok v) ::
                     (create_processed_agent_data commitOk subs
                       (insertRow db item) rest).2.1,
                   (create_processed_agent_data commitOk subs
                     (insertRow db item) rest).2.2) := by
                rw [create_cons, hc, hs]
                rfl
              rw [hcr] at hev ⊢
              cases i with
              | zero => simp at hev
              | succ i1 =>
                  cases i1 with
                  | zero =>
                      rw [List.get?_cons_succ, List.get?_cons_zero] at hev
                      injection hev with h
                      injection h with h1 h2 h3
                      subst h1
                      subst h2
                      subst h3
                      refine ⟨⟨Nat.le_refl 1, rfl⟩, ?_⟩
                      exact read_insertRow hwf item
                  | succ i2 =>
                      rw [List.get?_cons_succ, List.get?_cons_succ] at hev
                      obtain ⟨⟨h1, hcm⟩, hread⟩ :=
                        ih (insertRow db item) (WF_insertRow hwf item) i2 hev
                      refine ⟨⟨by omega, ?_⟩, hread⟩
                      obtain ⟨m, rfl⟩ : ∃ m, i2 = m + 1 := ⟨i2 - 1, by omega⟩
                      have hidx : m + 1 + 1 + 1 - 1 = (m + 1) + 1 := by omega
                      rw [hidx, List.get?_cons_succ, List.get?_cons_succ]
                      have hm : m + 1 - 1 = m := by omega
                      rwa [hm] at hcm

/-- Witness for claim C3: a one-item batch against the empty store; the
publish attempt at trace position 1 follows the commit at position 0 and the
row is readable in the snapshot taken at publish time. -/
theorem claim_C3_witness :
    (1 ≤ 1 ∧
      (create_processed_agent_data alwaysCommit [] emptyDb [sampleItem]).2.1.get?
        (1 - 1) = some (.committed (toRow 0 sampleItem))) ∧
    read_processed_agent_data ⟨[toRow 0 sampleItem], 1⟩ (toRow 0 sampleItem).id =
      .ok (rowToModel (toRow 0 sampleItem)) :=
  claim_C3 alwaysCommit [] [sampleItem] emptyDb (by decide) 1
    (toRow 0 sampleItem) ⟨[toRow 0 sampleItem], 1⟩ (.ok []) rfl
